import Mathlib

/-!
# Verification of the golang-rpc core (geerpc / gmrpc)

Shallow embedding of the claim-relevant parts of the repository. The repo
contains two near-identical trees: the `geerpc` package (src/client.go,
src/server.go, src/service.go) and the `gmrpc` packages (src/server/server.go,
src/service/service.go, and the client in src/unnamed/part_004). Functions
that differ between the two copies are embedded twice, in the namespaces
`Geerpc` and `Gmrpc`.

Modelling conventions:
- `uint64` sequence numbers are `Nat` reduced modulo `2^64` at the increment,
  mirroring Go's wrapping unsigned arithmetic.
- Go `error` values are `Option String` (`none` = nil, `some msg` = the
  error's message).
- The wire body of a request/reply is an opaque payload modelled as `Nat`;
  codec decode outcomes are passed in explicitly, since the embedding does
  not model the byte stream itself.
- Channels are modelled by their capacity; a `done()` signal is recorded in
  an event list instead of being sent on a channel.
- Go maps are association lists with insert-replace/lookup/delete semantics.
-/

namespace GolangRpc

/-- 2^64, the modulus of Go's `uint64` arithmetic (`Client.seq`, `Header.Seq`). -/
def U64 : Nat := 2 ^ 64

/-- `codec.Header` (src/unnamed/part_001): the per-message envelope. -/
structure Header where
  serviceMethod : String
  seq : Nat
  error : String
  deriving DecidableEq, Repr

/-- `geerpc.Option` (src/server.go lines 26-29): the handshake record.
Only the fields the embedded functions read are carried. -/
structure GOption where
  magicNumber : Nat
  codecType : String
  deriving DecidableEq, Repr

/-- `MagicNumber = 0x3bef5c` (src/server.go line 15, src/server/server.go line 17). -/
def magicNumberConst : Nat := 0x3bef5c

/-- `codec.GobType` tag. -/
def gobType : String := "application/gob"

/-- `codec.JsonType` tag. -/
def jsonType : String := "application/json"

/-- `DefaultOption` (src/server.go lines 32-35). -/
def defaultOption : GOption :=
  { magicNumber := magicNumberConst, codecType := gobType }

/-- `ErrShutdown = errors.New("connection is shut down")` (src/client.go line 45). -/
def errShutdown : String := "connection is shut down"

/-- Client-side `Call` (src/client.go lines 17-24). The `Done` channel is
modelled by its capacity `doneCap`; `Args` is the opaque payload. -/
structure Call where
  seq : Nat
  serviceMethod : String
  args : Nat
  error : Option String
  doneCap : Nat
  deriving DecidableEq, Repr

/-- Insert-replace into a Go map modelled as an association list
(`client.pending[call.Seq] = call`). -/
def insertP (m : List (Nat × Call)) (k : Nat) (v : Call) : List (Nat × Call) :=
  match m with
  | [] => [(k, v)]
  | (k0, v0) :: rest =>
    if k0 = k then (k, v) :: rest else (k0, v0) :: insertP rest k v

/-- Delete a key from a Go map modelled as an association list
(`delete(client.pending, seq)`). -/
def deleteP (m : List (Nat × Call)) (k : Nat) : List (Nat × Call) :=
  match m with
  | [] => []
  | (k0, v0) :: rest =>
    if k0 = k then deleteP rest k else (k0, v0) :: deleteP rest k

/-- Mutable client state (src/client.go lines 31-41): `seq`, `pending`,
`closing`, `shutdown`. The codec, mutexes and reused header struct are not
part of the abstract state. -/
structure ClientState where
  seq : Nat
  pending : List (Nat × Call)
  closing : Bool
  shutdown : Bool
  deriving DecidableEq, Repr

/-- The state built by `newClientCodec` (src/client.go lines 229-239):
`seq` starts at 1 (0 means invalid call), empty pending map. -/
def newClientState : ClientState :=
  { seq := 1, pending := [], closing := false, shutdown := false }

/-- `Client.registerCall` (src/client.go lines 66-79, src/unnamed/part_004
lines 64-78; both copies are identical). Returns the updated state, the
sequence number handed to the call (`0` on failure), and the error.
`client.seq++` is `uint64` arithmetic, hence the reduction modulo `2^64`. -/
def registerCall (st : ClientState) (c : Call) : ClientState × Nat × Option String :=
  if st.closing || st.shutdown then
    (st, 0, some errShutdown)
  else
    let c1 : Call := { c with seq := st.seq }
    ({ st with pending := insertP st.pending st.seq c1,
               seq := (st.seq + 1) % U64 },
     st.seq, none)

/-- `Client.removeCall` (src/client.go lines 81-87): look up `pending[seq]`,
delete the entry, return the call (or `none` if absent). -/
def removeCall (st : ClientState) (seq : Nat) : Option Call × ClientState :=
  (st.pending.lookup seq, { st with pending := deleteP st.pending seq })

/-- Outcome of `Client.send`: final state, the call record as the caller
observes it, the (header, args) frames pushed through `Codec.Write`, and the
sequence numbers for which `call.done()` fired. -/
structure SendOut where
  state : ClientState
  call : Call
  writes : List (Header × Nat)
  dones : List Nat
  deriving DecidableEq, Repr

/-- `Client.send` (src/client.go lines 139-167, src/unnamed/part_004
lines 138-164; identical). `writeRes` is the result of `cc.Write` (`none` =
success), supplied by the environment. -/
def send (st : ClientState) (c : Call) (writeRes : Option String) : SendOut :=
  match registerCall st c with
  | (st1, _, some e) =>
    -- registration failed: call.Error = err; call.done(); no write;
    -- the call's Seq field was not assigned, so it keeps its zero value
    { state := st1, call := { c with error := some e }, writes := [],
      dones := [c.seq] }
  | (st1, seq, none) =>
    let hdr : Header := { serviceMethod := c.serviceMethod, seq := seq, error := "" }
    match writeRes with
    | none => { state := st1, call := { c with seq := seq }, writes := [(hdr, c.args)],
                dones := [] }
    | some e =>
      -- write failed: removeCall(seq); if still present, fail it and signal
      match removeCall st1 seq with
      | (some c2, st2) =>
        { state := st2, call := { c2 with error := some e },
          writes := [(hdr, c.args)], dones := [c2.seq] }
      | (none, st2) =>
        { state := st2, call := { c with seq := seq },
          writes := [(hdr, c.args)], dones := [] }

/-- Outcome of `Client.Go`: `panicMsg` is `some _` when `log.Panic` fired
(in which case nothing else happened). -/
structure GoOut where
  panicMsg : Option String
  state : ClientState
  call : Option Call
  writes : List (Header × Nat)
  dones : List Nat
  deriving DecidableEq, Repr

/-- `Client.Go` (src/client.go lines 171-186, src/unnamed/part_004
lines 166-181; identical). `done` is the user-supplied done channel,
modelled by its capacity (`none` = nil channel). -/
def goCall (st : ClientState) (serviceMethod : String) (args : Nat)
    (done : Option Nat) (writeRes : Option String) : GoOut :=
  match done with
  | some 0 =>
    { panicMsg := some "rpc client: done channel is unbuffered",
      state := st, call := none, writes := [], dones := [] }
  | _ =>
    let cap10 : Nat := match done with | none => 10 | some n => n
    let c : Call := { seq := 0, serviceMethod := serviceMethod, args := args,
                      error := none, doneCap := cap10 }
    let out := send st c writeRes
    { panicMsg := none, state := out.state, call := some out.call,
      writes := out.writes, dones := out.dones }

/-- Register `n` calls in a row with a fixed fresh call record; used to
describe the sequence numbers a connection hands out over its lifetime. -/
def iterRegister (c : Call) : Nat → ClientState → ClientState
  | 0, st => st
  | n + 1, st => iterRegister c n (registerCall st c).1

/-! ## Reflection model for the service registry

`reflect.Type` and `reflect.Value` are modelled just deeply enough for the
operations src/service.go performs: `Kind`, `Elem`, `New`, `Value.Elem`,
`Value.Set`, `MakeMap`, `MakeSlice`. -/

/-- A Go type as seen by the registry: a named base type, a pointer, a map,
or a slice. -/
inductive GoType where
  | base (name : String)
  | ptr (t : GoType)
  | mapT (k v : GoType)
  | slice (t : GoType)
  deriving DecidableEq, Repr

/-- `reflect.Kind`, restricted to the kinds src/service.go inspects. -/
inductive GoKind where
  | base
  | ptr
  | mapK
  | slice
  deriving DecidableEq, Repr

/-- `Type.Kind()`. -/
def GoType.kind : GoType → GoKind
  | .base _ => .base
  | .ptr _ => .ptr
  | .mapT _ _ => .mapK
  | .slice _ => .slice

/-- `Type.Elem()`: the pointed-to / element type. For a base type (where Go
reflection would panic) the type itself is returned; no embedded code path
reaches that case. -/
def GoType.elem : GoType → GoType
  | .ptr t => t
  | .mapT _ v => v
  | .slice t => t
  | .base n => .base n

/-- A Go value, as far as the factories can tell them apart: the zero value
of a base type, a nil pointer, an allocated cell holding a value, a nil or
freshly made map, a nil slice or a slice made with a given len/cap. -/
inductive GoVal where
  | zeroBase (name : String)
  | nilPtr
  | cell (v : GoVal)
  | nilMap
  | madeMap
  | nilSlice
  | madeSlice (len cap : Nat)
  deriving DecidableEq, Repr

/-- The zero value of a type (what `reflect.New` puts in the fresh cell). -/
def zeroVal : GoType → GoVal
  | .base n => .zeroBase n
  | .ptr _ => .nilPtr
  | .mapT _ _ => .nilMap
  | .slice _ => .nilSlice

/-- `reflect.Value`: a typed value together with its addressability. -/
structure RValue where
  typ : GoType
  val : GoVal
  addressable : Bool
  deriving DecidableEq, Repr

/-- `reflect.New(t)`: a pointer to a freshly allocated zero value of `t`. -/
def rnew (t : GoType) : RValue :=
  { typ := .ptr t, val := .cell (zeroVal t), addressable := false }

/-- `Value.Elem()` on a pointer value: the pointed-to value, addressable.
Other cases are junk (Go reflection would panic); unreached here. -/
def relem (v : RValue) : RValue :=
  match v with
  | { typ := .ptr t, val := .cell w, addressable := _ } =>
    { typ := t, val := w, addressable := true }
  | v => v

/-- `p.Elem().Set(x)` where `p` is a pointer value: overwrite the pointed-to
cell with `x`'s value. -/
def setThroughPtr (p x : RValue) : RValue :=
  match p with
  | { typ := .ptr t, val := .cell _, addressable := a } =>
    { typ := .ptr t, val := .cell x.val, addressable := a }
  | p => p

/-- `reflect.MakeMap(t)`: a fresh empty map of type `t`. -/
def makeMap (t : GoType) : RValue :=
  { typ := t, val := .madeMap, addressable := false }

/-- `reflect.MakeSlice(t, len, cap)`. -/
def makeSlice (t : GoType) (len cap : Nat) : RValue :=
  { typ := t, val := .madeSlice len cap, addressable := false }

/-- `methodType` (src/service.go lines 10-15, src/service/service.go
lines 13-18). `impl` stands for the reflected `method.Func` of the user's
receiver: the opaque callee mapping the decoded argument payload to either
an error message or a reply payload. -/
structure MethodType where
  argType : GoType
  replyType : GoType
  numCalls : Nat
  impl : Nat → Except String Nat

/-- `methodType.newArgv` (src/service.go lines 22-33) = `NewArgv`
(src/service/service.go lines 24-34): a fresh allocation of the pointed-to
type for pointer argument types, otherwise an addressable zero value. -/
def newArgv (mt : MethodType) : RValue :=
  if mt.argType.kind = .ptr then
    rnew mt.argType.elem
  else
    relem (rnew mt.argType)

/-- `methodType.newReplyv` (src/service.go lines 36-48) = `NewReplyv`
(src/service/service.go lines 36-47): always `reflect.New(ReplyType.Elem())`,
then the pointed-to cell is set to an empty map or a len-0 cap-0 slice when
the element kind is Map or Slice. -/
def newReplyv (mt : MethodType) : RValue :=
  let replyv := rnew mt.replyType.elem
  match mt.replyType.elem.kind with
  | .mapK => setThroughPtr replyv (makeMap mt.replyType.elem)
  | .slice => setThroughPtr replyv (makeSlice mt.replyType.elem 0 0)
  | _ => replyv

/-- `service` (src/service.go lines 51-56, src/service/service.go
lines 49-54): name plus the method table. The receiver value itself lives
inside each method's `impl`. -/
structure Service where
  name : String
  methods : List (String × MethodType)

/-- `service.call` (src/service.go lines 59-67) = `Call`
(src/service/service.go lines 84-93): bump the call counter, invoke the
method, surface a non-nil error. Returns the updated descriptor and the
result. -/
def serviceCall (m : MethodType) (argv : Nat) :
    MethodType × Except String Nat :=
  ({ m with numCalls := m.numCalls + 1 }, m.impl argv)

/-- A receiver as the registry sees it after reflection: the concrete type
name and the eligible-method table that `registerMethods` builds. The
reflective enumeration and signature filtering themselves live outside the
embedding; a `Receiver` is its output. -/
structure Receiver where
  typeName : String
  methodTable : List (String × MethodType)

/-- `newService` (src/service.go lines 69-81): build the `service` record
from the receiver (the exported-name `log.Fatalf` guard aborts the process
and is outside the embedded success path). -/
def newService (r : Receiver) : Service :=
  { name := r.typeName, methods := r.methodTable }

/-- The server's `serviceMap` (a `sync.Map`), as an association list. -/
def ServiceMap : Type := List (String × Service)

/-- `sync.Map.LoadOrStore`: returns the map afterwards and whether the key
was already present (`loaded`). -/
def loadOrStore (m : List (String × Service)) (k : String) (v : Service) :
    List (String × Service) × Bool :=
  match m.lookup k with
  | some _ => (m, true)
  | none => (m ++ [(k, v)], false)

/-- `Server.Register` (src/server.go lines 46-53, src/server/server.go
lines 40-47; identical up to renaming): `newService` then `LoadOrStore`;
a duplicate name yields the "already defined" error and stores nothing. -/
def register (m : List (String × Service)) (r : Receiver) :
    List (String × Service) × Option String :=
  let s := newService r
  let (m1, dup) := loadOrStore m s.name s
  if dup then (m1, some ("rpc: service already defined: " ++ s.name))
  else (m1, none)

/-- Split a character list at its last `'.'`:
`strings.LastIndex(serviceMethod, ".")` together with the two slices
`serviceMethod[:dot]` and `serviceMethod[dot+1:]`. `none` when there is no
dot (`dot < 0`). -/
def lastDotSplit : List Char → Option (List Char × List Char)
  | [] => none
  | c :: rest =>
    match lastDotSplit rest with
    | some (pre, post) => some (c :: pre, post)
    | none => if c = '.' then some ([], rest) else none

/-- `Server.findService` (src/server.go lines 55-73, src/server/server.go
lines 49-73; identical): split at the last dot, look up the service, then
the method; each failure produces its own error message. -/
def findService (m : List (String × Service)) (serviceMethod : String) :
    Except String (Service × MethodType) :=
  match lastDotSplit serviceMethod.data with
  | none =>
    .error ("rpc server: service/method request ill-formed: " ++ serviceMethod)
  | some (sn, mn) =>
    let serviceName := String.mk sn
    let methodName := String.mk mn
    match m.lookup serviceName with
    | none => .error ("rpc server: can't find service " ++ serviceName)
    | some svc =>
      match svc.methods.lookup methodName with
      | none => .error ("rpc server: can't find method " ++ methodName)
      | some mt => .ok (svc, mt)

/-! ## Server request loop -/

/-- What the codec yields for one incoming request: the result of
`ReadHeader` and, when the loop goes on to `ReadBody`, whether the body
decodes (`bodyOk`) and the decoded argument payload. -/
structure WireReq where
  headerRes : Except String Header
  bodyOk : Bool
  bodyVal : Nat

/-- The `request` struct (src/server.go lines 18-23), with the resolved
service/method pair and the decoded argument payload when present. -/
structure Request where
  h : Header
  svcMt : Option (Service × MethodType)
  argv : Option Nat

/-- One reply frame written by the server: the header (whose `Error` field
carries per-call failures) and either the reply payload or the
`invalidRequest` placeholder body. -/
inductive RespBody where
  | invalid
  | payload (v : Nat)
  deriving DecidableEq, Repr

namespace Geerpc

/-- geerpc `Server.readRequest` (src/server.go lines 171-194): header-read
failure gives `(none, some err)`; an unresolved `ServiceMethod` gives a
request that still carries the header, together with the error; a body
decode failure likewise keeps the request. -/
def readRequest (m : List (String × Service)) (w : WireReq) :
    Option Request × Option String :=
  match w.headerRes with
  | .error e => (none, some e)
  | .ok h =>
    match findService m h.serviceMethod with
    | .error e => (some { h := h, svcMt := none, argv := none }, some e)
    | .ok (svc, mt) =>
      -- argv := mtype.newArgv(); replyv := mtype.newReplyv(); then ReadBody
      let req : Request := { h := h, svcMt := some (svc, mt), argv := none }
      if w.bodyOk then
        (some { req with argv := some w.bodyVal }, none)
      else
        (some req, some "rpc server: read body err")

/-- geerpc `Server.handleRequest` (src/server.go lines 214-223): invoke
`svc.call`; on error set `Header.Error` and send the placeholder body,
otherwise send the reply value. -/
def handleRequest (req : Request) : Header × RespBody :=
  match req.svcMt, req.argv with
  | some (_, mt), some argv =>
    match (serviceCall mt argv).2 with
    | .error e => ({ req.h with error := e }, .invalid)
    | .ok reply => (req.h, .payload reply)
  | _, _ => (req.h, .invalid)

/-- geerpc `Server.ServeCodec` (src/server.go lines 120-143): read requests
until an unrecoverable error (`req == nil`); a recoverable error produces a
reply whose header carries the error text and the loop continues; otherwise
the request is handled. The handler goroutines are serialized by the
`sending` mutex; the model emits their replies in request order. -/
def serveCodec (m : List (String × Service)) : List WireReq → List (Header × RespBody)
  | [] => []
  | w :: rest =>
    match readRequest m w with
    | (none, _) => []
    | (some req, some e) =>
      ({ req.h with error := e }, .invalid) :: serveCodec m rest
    | (some req, none) =>
      handleRequest req :: serveCodec m rest

end Geerpc

namespace Gmrpc

/-- gmrpc `Server.readRequest` (src/server/server.go lines 145-178). It
differs from the geerpc copy in one place: when `findService` fails it
returns `(nil, err)`, discarding the request it had just built. -/
def readRequest (m : List (String × Service)) (w : WireReq) :
    Option Request × Option String :=
  match w.headerRes with
  | .error e => (none, some e)
  | .ok h =>
    match findService m h.serviceMethod with
    | .error e => (none, some e)
    | .ok (svc, mt) =>
      let req : Request := { h := h, svcMt := some (svc, mt), argv := none }
      if w.bodyOk then
        (some { req with argv := some w.bodyVal }, none)
      else
        (some req, some "rpc server: read body err")

/-- gmrpc `Server.ServeCodec` (src/server/server.go lines 108-132): same
loop shape as the geerpc copy (`handleRequest`, lines 180-189, is
identical), but driven by the gmrpc `readRequest`. -/
def serveCodec (m : List (String × Service)) : List WireReq → List (Header × RespBody)
  | [] => []
  | w :: rest =>
    match readRequest m w with
    | (none, _) => []
    | (some req, some e) =>
      ({ req.h with error := e }, .invalid) :: serveCodec m rest
    | (some req, none) =>
      Geerpc.handleRequest req :: serveCodec m rest

end Gmrpc

/-! ## ServeConn: option handshake -/

/-- What `ServeConn` does with a connection after decoding the option. -/
inductive ConnOutcome where
  | earlyReturn
  | served (codecType : String)
  deriving DecidableEq, Repr

/-- A log line emitted by `ServeConn`. -/
inductive SLog where
  | optionsError
  | invalidMagic (m : Nat)
  | invalidCodecType (t : String)
  deriving DecidableEq, Repr

/-- geerpc `Server.ServeConn` (src/server.go lines 91-114): decode the
option; log (but do not return) on a magic-number mismatch; return if the
codec type is unknown, else enter `ServeCodec`. `known` is the key set of
`codec.NewCodecFuncMap`; `optRead` the result of the JSON decode. -/
def serveConnGeerpc (known : List String) (optRead : Option GOption) :
    ConnOutcome × List SLog :=
  match optRead with
  | none => (.earlyReturn, [.optionsError])
  | some opt =>
    let magicLogs : List SLog :=
      if opt.magicNumber ≠ magicNumberConst then [.invalidMagic opt.magicNumber] else []
    if known.contains opt.codecType then
      (.served opt.codecType, magicLogs)
    else
      (.earlyReturn, magicLogs ++ [.invalidCodecType opt.codecType])

/-- gmrpc `Server.ServeConn` (src/server/server.go lines 88-106): decode the
option and select the codec; this copy never inspects `MagicNumber`. -/
def serveConnGmrpc (known : List String) (optRead : Option GOption) :
    ConnOutcome × List SLog :=
  match optRead with
  | none => (.earlyReturn, [.optionsError])
  | some opt =>
    if known.contains opt.codecType then
      (.served opt.codecType, [])
    else
      (.earlyReturn, [.invalidCodecType opt.codecType])

/-! ## Client: parseOptions and receive -/

/-- `parseOptions` (src/client.go lines 243-259). The Go variadic
`...*Option` is a list of possibly-nil pointers. The source first returns
`DefaultOption` when `len(opts) == 0 || opts[0] == nil`, only then checks
`len(opts) != 1`, and finally overwrites `MagicNumber` unconditionally and
`CodecType` when empty. -/
def parseOptions (opts : List (Option GOption)) : Except String GOption :=
  match opts with
  | [] => .ok defaultOption
  | none :: _ => .ok defaultOption
  | some opt :: rest =>
    if rest.length ≠ 0 then
      .error "number of options is more than 1"
    else
      .ok { opt with
              magicNumber := defaultOption.magicNumber,
              codecType := if opt.codecType = "" then defaultOption.codecType
                           else opt.codecType }

/-- One codec operation performed by the client's receive loop. -/
inductive RecvEvent where
  | readHeader (h : Header)
  | readBodyIntoHeader (h : Header)
  | readBodyDiscard
  | readBodyIntoReply (seq : Nat)
  deriving DecidableEq, Repr

/-- What one iteration of the receive loop did: the pending map afterwards,
the codec operations in order, the call record as updated (when one was
found), and the sequence numbers whose `call.done()` fired. -/
structure RecvStep where
  pending : List (Nat × Call)
  events : List RecvEvent
  call : Option Call
  dones : List Nat
  deriving DecidableEq, Repr

namespace Geerpc

/-- One iteration of geerpc `Client.receive` (src/client.go lines 109-136)
on a successfully decoded header `h`; `bodyOk` is whether the following
body decodes into `call.Reply`. The header is read with `cc.ReadHeader`;
a non-empty `h.Error` sets `call.Error`, discards the body with
`cc.ReadBody(nil)` and signals done; otherwise the body is read into the
reply and done is signalled either way. -/
def receiveStep (st : ClientState) (h : Header) (bodyOk : Bool) : RecvStep :=
  let (callOpt, st1) := removeCall st h.seq
  match callOpt with
  | none =>
    { pending := st1.pending, events := [.readHeader h, .readBodyDiscard],
      call := none, dones := [] }
  | some c =>
    if h.error ≠ "" then
      { pending := st1.pending, events := [.readHeader h, .readBodyDiscard],
        call := some { c with error := some h.error }, dones := [c.seq] }
    else
      { pending := st1.pending, events := [.readHeader h, .readBodyIntoReply c.seq],
        call := some { c with error :=
          if bodyOk then none else some "reading body rpc codec decode error" },
        dones := [c.seq] }

end Geerpc

namespace Gmrpc

/-- One iteration of gmrpc `Client.receive` (src/unnamed/part_004
lines 107-136) on header `h`. This copy reads the header with
`cc.ReadBody(&header)`, and in the `header.Error != ""` branch sets
`call.Error` but neither discards the body nor calls `call.done()`. -/
def receiveStep (st : ClientState) (h : Header) (bodyOk : Bool) : RecvStep :=
  let (callOpt, st1) := removeCall st h.seq
  match callOpt with
  | none =>
    { pending := st1.pending, events := [.readBodyIntoHeader h, .readBodyDiscard],
      call := none, dones := [] }
  | some c =>
    if h.error ≠ "" then
      { pending := st1.pending, events := [.readBodyIntoHeader h],
        call := some { c with error := some h.error }, dones := [] }
    else
      { pending := st1.pending, events := [.readBodyIntoHeader h, .readBodyIntoReply c.seq],
        call := some { c with error :=
          if bodyOk then none else some "reading body rpc codec decode error" },
        dones := [c.seq] }

end Gmrpc

/-! ## Concrete fixtures

A registered service `Foo` with a single method `Sum`, in the shape of the
repository's test service (src/service/service_test.go). -/

/-- The user method behind `Foo.Sum`: an opaque callee that succeeds. -/
def sumImpl : Nat → Except String Nat := fun a => .ok (a + 1)

/-- Descriptor of `Foo.Sum`: pointer argument and reply types. -/
def mtSum : MethodType :=
  { argType := .ptr (.base "Args"), replyType := .ptr (.base "int"),
    numCalls := 0, impl := sumImpl }

/-- The reflected receiver `Foo`. -/
def fooReceiver : Receiver :=
  { typeName := "Foo", methodTable := [("Sum", mtSum)] }

/-- The `service` record built for `Foo`. -/
def fooService : Service := newService fooReceiver

/-- A server map holding exactly the service `Foo`. -/
def smapFoo : List (String × Service) := (register [] fooReceiver).1

/-- The key set of `codec.NewCodecFuncMap` after `init`
(src/unnamed/part_001): gob and json. -/
def knownCodecs : List String := [gobType, jsonType]

/-- A generic in-flight call used to drive the client state machine. -/
def dummyCall : Call :=
  { seq := 0, serviceMethod := "Foo.Sum", args := 0, error := none, doneCap := 10 }

/-- A pending call registered under Seq 5. -/
def call5 : Call :=
  { seq := 5, serviceMethod := "Foo.Sum", args := 7, error := none, doneCap := 10 }

/-- A client state with `call5` pending. -/
def stWith5 : ClientState :=
  { seq := 6, pending := [(5, call5)], closing := false, shutdown := false }

/-- A reply header for Seq 5 carrying a server-side error. -/
def hdrErr : Header := { serviceMethod := "Foo.Sum", seq := 5, error := "boom" }

/-- Request header naming a method `Foo` does not have. -/
def hdrProduct : Header := { serviceMethod := "Foo.Product", seq := 1, error := "" }

/-- Request header naming the registered method `Foo.Sum`. -/
def hdrSum : Header := { serviceMethod := "Foo.Sum", seq := 2, error := "" }

/-- A well-formed incoming request for the missing `Foo.Product`. -/
def reqProduct : WireReq :=
  { headerRes := .ok hdrProduct, bodyOk := true, bodyVal := 3 }

/-- A well-formed incoming request for `Foo.Sum` with argument payload 3. -/
def reqSum : WireReq :=
  { headerRes := .ok hdrSum, bodyOk := true, bodyVal := 3 }

/-! ## Helper lemmas -/

/-- Looking up the key just inserted by `insertP` yields the new value. -/
theorem lookup_insertP (p : List (Nat × Call)) (k : Nat) (v : Call) :
    (insertP p k v).lookup k = some v := by
  induction p with
  | nil => simp [insertP, List.lookup]
  | cons kv rest ih =>
    obtain ⟨k0, v0⟩ := kv
    by_cases h : k0 = k
    · subst h
      simp [insertP, List.lookup]
    · have hne : (k == k0) = false := by
        simp [Ne.symm h]
      simp only [insertP, if_neg h, List.lookup, hne]
      exact ih

/-- Appending a fresh binding makes it visible to lookup. -/
theorem lookup_append_fresh {α β : Type} [BEq α] [LawfulBEq α]
    (m : List (α × β)) (k : α) (v : β) (h : m.lookup k = none) :
    (m ++ [(k, v)]).lookup k = some v := by
  induction m with
  | nil => simp [List.lookup]
  | cons kv rest ih =>
    obtain ⟨k0, v0⟩ := kv
    cases hbeq : (k == k0) with
    | true =>
      exfalso
      simp only [List.lookup, hbeq] at h
      exact Option.noConfusion h
    | false =>
      simp only [List.cons_append, List.lookup, hbeq]
      simp only [List.lookup, hbeq] at h
      exact ih h

/-- A character list without a dot has no last-dot split. -/
theorem lastDotSplit_eq_none (s : List Char) (h : '.' ∉ s) :
    lastDotSplit s = none := by
  induction s with
  | nil => rfl
  | cons c rest ih =>
    have hc : c ≠ '.' := fun he => h (he ▸ List.mem_cons_self c rest)
    have hrest : '.' ∉ rest := fun hm => h (List.mem_cons_of_mem c hm)
    simp [lastDotSplit, ih hrest, Ne.symm hc, hc]

/-- `lastDotSplit` splits at the last dot: a dot followed by a dot-free
suffix is the split point, whatever the prefix contains. -/
theorem lastDotSplit_last (pre post : List Char) (h : '.' ∉ post) :
    lastDotSplit (pre ++ '.' :: post) = some (pre, post) := by
  induction pre with
  | nil => simp [lastDotSplit, lastDotSplit_eq_none post h]
  | cons c rest ih => simp [lastDotSplit, ih]

/-- `registerCall` on a live client: assign the current `seq`, insert the
call under it, bump `seq` modulo `2^64`. -/
theorem registerCall_live (st : ClientState) (c : Call)
    (h1 : st.closing = false) (h2 : st.shutdown = false) :
    registerCall st c =
      ({ st with pending := insertP st.pending st.seq { c with seq := st.seq },
                 seq := (st.seq + 1) % U64 }, st.seq, none) := by
  simp [registerCall, h1, h2]

/-- Running `n` registrations on a live client keeps it live and advances
`seq` by `n` modulo `2^64`. -/
theorem iterRegister_seq (c : Call) :
    ∀ (n : Nat) (st : ClientState), st.closing = false → st.shutdown = false →
      st.seq < U64 →
      (iterRegister c n st).closing = false ∧
      (iterRegister c n st).shutdown = false ∧
      (iterRegister c n st).seq = (st.seq + n) % U64 := by
  intro n
  induction n with
  | zero =>
    intro st h1 h2 hlt
    exact ⟨h1, h2, (Nat.mod_eq_of_lt hlt).symm⟩
  | succ n ih =>
    intro st h1 h2 hlt
    have hstep := registerCall_live st c h1 h2
    have hc : (registerCall st c).1.closing = false := by rw [hstep]; exact h1
    have hs : (registerCall st c).1.shutdown = false := by rw [hstep]; exact h2
    have hU : 0 < U64 := by norm_num [U64]
    have hseq : (registerCall st c).1.seq = (st.seq + 1) % U64 := by rw [hstep]
    have hlt1 : (registerCall st c).1.seq < U64 := by
      rw [hseq]; exact Nat.mod_lt _ hU
    have h := ih ((registerCall st c).1) hc hs hlt1
    refine ⟨h.1, h.2.1, ?_⟩
    show (iterRegister c n (registerCall st c).1).seq = (st.seq + (n + 1)) % U64
    rw [h.2.2, hseq, Nat.mod_add_mod]
    congr 1
    omega

/-- `register` on a name not yet taken stores the new service and returns
no error. -/
theorem register_fresh (m : List (String × Service)) (r : Receiver)
    (h : m.lookup r.typeName = none) :
    register m r = (m ++ [(r.typeName, newService r)], none) := by
  simp [register, loadOrStore, newService, h]

/-- `register` on a name already taken returns the duplicate-definition
error and leaves the map unchanged. -/
theorem register_dup (m : List (String × Service)) (r : Receiver)
    (svc : Service) (h : m.lookup r.typeName = some svc) :
    register m r = (m, some ("rpc: service already defined: " ++ r.typeName)) := by
  simp [register, loadOrStore, newService, h]

/-- Concatenating strings concatenates their character data. -/
theorem string_data_append (s t : String) : (s ++ t).data = s.data ++ t.data := by
  cases s; cases t; rfl

/-- Rebuilding a string from its character data is the identity. -/
theorem string_mk_data (s : String) : String.mk s.data = s := by
  cases s; rfl

/-- Whatever path `send` takes, the call it hands back keeps the done
channel capacity it was created with. -/
theorem send_call_doneCap (st : ClientState) (c : Call) (w : Option String) :
    (send st c w).call.doneCap = c.doneCap := by
  by_cases h : (st.closing || st.shutdown) = true
  · simp [send, registerCall, h]
  · have h2 : st.closing = false ∧ st.shutdown = false := by
      constructor <;> revert h <;> cases st.closing <;> cases st.shutdown <;> simp
    have hreg := registerCall_live st c h2.1 h2.2
    cases w with
    | none => simp [send, hreg]
    | some e => simp [send, hreg, removeCall, lookup_insertP]

/-! ## Claim theorems -/

/-- C3 counterexample: `client.seq` is a Go `uint64`, so after `2^64 - 1`
successful registrations on a fresh connection the counter has wrapped to 0,
and the next `registerCall` succeeds (error `none`) while assigning Seq 0 —
refuting "Seq 0 is never assigned" and, at later wraps, seq uniqueness. -/
theorem C3_counterexample :
    (registerCall (iterRegister dummyCall (U64 - 1) newClientState) dummyCall).2 =
      (0, none) := by
  have h := iterRegister_seq dummyCall (U64 - 1) newClientState rfl rfl
    (by norm_num [U64, newClientState])
  have hseq : (iterRegister dummyCall (U64 - 1) newClientState).seq = 0 := by
    rw [h.2.2]
    show (newClientState.seq + (U64 - 1)) % U64 = 0
    have h1 : newClientState.seq = 1 := rfl
    have hU : U64 = 18446744073709551616 := by norm_num [U64]
    rw [h1]
    rw [hU]
  have hr := registerCall_live (iterRegister dummyCall (U64 - 1) newClientState)
    dummyCall h.1 h.2.1
  rw [hr, hseq]

/-- C3 (amended): on a fresh connection `seq` starts at 1; every successful
`registerCall` assigns the current `seq`, inserts the call under that key,
and increments `seq` modulo `2^64`; hence among the first `2^64 - 1` calls
registered on one connection, Seq 0 is never assigned and no two calls
receive the same Seq. -/
theorem C3_seq_assignment (k l : Nat) (hkl : k < l) (hl : l < U64 - 1) :
    newClientState.seq = 1 ∧
    (∀ st c, st.closing = false → st.shutdown = false →
      registerCall st c =
        ({ st with pending := insertP st.pending st.seq { c with seq := st.seq },
                   seq := (st.seq + 1) % U64 }, st.seq, none)) ∧
    (registerCall (iterRegister dummyCall k newClientState) dummyCall).2 =
      (1 + k, none) ∧
    (registerCall (iterRegister dummyCall l newClientState) dummyCall).2 =
      (1 + l, none) ∧
    1 + k ≠ 0 ∧ 1 + k ≠ 1 + l := by
  have hU : U64 = 18446744073709551616 := by norm_num [U64]
  have key : ∀ m : Nat, m < U64 - 1 →
      (registerCall (iterRegister dummyCall m newClientState) dummyCall).2 =
        (1 + m, none) := by
    intro m hm
    have h := iterRegister_seq dummyCall m newClientState rfl rfl
      (by norm_num [U64, newClientState])
    have hseq : (iterRegister dummyCall m newClientState).seq = 1 + m := by
      rw [h.2.2]
      show (newClientState.seq + m) % U64 = 1 + m
      have h1 : newClientState.seq = 1 := rfl
      rw [h1]
      refine Nat.mod_eq_of_lt ?_
      rw [hU] at hm ⊢
      omega
    have hr := registerCall_live (iterRegister dummyCall m newClientState)
      dummyCall h.1 h.2.1
    rw [hr, hseq]
  refine ⟨rfl, fun st c h1 h2 => registerCall_live st c h1 h2,
    key k (lt_trans hkl hl), key l hl, by omega, by omega⟩

/-- C3 witness: the first two registrations on a fresh connection succeed
and receive Seqs 1 and 2, distinct and nonzero. -/
theorem C3_seq_assignment_witness :
    (registerCall (iterRegister dummyCall 0 newClientState) dummyCall).2 =
      (1 + 0, none) ∧
    (registerCall (iterRegister dummyCall 1 newClientState) dummyCall).2 =
      (1 + 1, none) ∧
    1 + 0 ≠ 0 ∧ 1 + 0 ≠ 1 + 1 := by
  have h := C3_seq_assignment 0 1 (by norm_num) (by norm_num [U64])
  exact ⟨h.2.2.1, h.2.2.2.1, h.2.2.2.2.1, h.2.2.2.2.2⟩

/-- C4: registering a second service under an already-taken name fails with
the "service already defined" error and leaves the map unchanged, so the
first registration's service (with its method table) is still the one
lookups resolve. -/
theorem C4_register_duplicate (m : List (String × Service)) (r r2 : Receiver)
    (hname : r2.typeName = r.typeName)
    (hfresh : m.lookup r.typeName = none) :
    (register m r).2 = none ∧
    (register m r).1 = m ++ [(r.typeName, newService r)] ∧
    (register (register m r).1 r2).2 =
      some ("rpc: service already defined: " ++ r.typeName) ∧
    (register (register m r).1 r2).1 = (register m r).1 ∧
    ((register (register m r).1 r2).1).lookup r.typeName = some (newService r) := by
  have hlook := lookup_append_fresh m r.typeName (newService r) hfresh
  have h1 := register_fresh m r hfresh
  have h2 := register_dup (m ++ [(r.typeName, newService r)]) r2 (newService r)
    (by rw [hname]; exact hlook)
  refine ⟨by rw [h1], by rw [h1], ?_, ?_, ?_⟩
  · rw [h1]
    show (register (m ++ [(r.typeName, newService r)]) r2).2 =
      some ("rpc: service already defined: " ++ r.typeName)
    rw [h2, hname]
  · rw [h1]
    show (register (m ++ [(r.typeName, newService r)]) r2).1 =
      m ++ [(r.typeName, newService r)]
    rw [h2]
  · rw [h1]
    show ((register (m ++ [(r.typeName, newService r)]) r2).1).lookup r.typeName =
      some (newService r)
    rw [h2]
    exact hlook

/-- C4 witness: registering `Foo` twice on an empty map — first succeeds,
second errors, the stored service survives. -/
theorem C4_register_duplicate_witness :
    (register [] fooReceiver).2 = none ∧
    (register [] fooReceiver).1 = [] ++ [("Foo", newService fooReceiver)] ∧
    (register (register [] fooReceiver).1 fooReceiver).2 =
      some ("rpc: service already defined: " ++ "Foo") ∧
    (register (register [] fooReceiver).1 fooReceiver).1 =
      (register [] fooReceiver).1 ∧
    ((register (register [] fooReceiver).1 fooReceiver).1).lookup "Foo" =
      some (newService fooReceiver) := by
  exact C4_register_duplicate [] fooReceiver fooReceiver rfl rfl

/-- C6: `newArgv` returns a fresh allocation (a new cell holding the zero
value) of the pointed-to type when the argument type is a pointer, and
otherwise an addressable zero value of the argument type itself; `newReplyv`
always returns a fresh allocation of the pointed-to reply type, initialized
to an empty map for map element types and to a len-0 cap-0 slice for slice
element types, and to the plain zero value otherwise. -/
theorem C6_factories (mt : MethodType) :
    newArgv mt = (if mt.argType.kind = .ptr then
        { typ := .ptr mt.argType.elem, val := .cell (zeroVal mt.argType.elem),
          addressable := false }
      else
        { typ := mt.argType, val := zeroVal mt.argType, addressable := true }) ∧
    newReplyv mt =
      { typ := .ptr mt.replyType.elem,
        val := .cell (match mt.replyType.elem.kind with
          | .mapK => GoVal.madeMap
          | .slice => GoVal.madeSlice 0 0
          | _ => zeroVal mt.replyType.elem),
        addressable := false } := by
  obtain ⟨at0, rt, n, f⟩ := mt
  constructor
  · cases at0 <;> rfl
  · cases rt with
    | base nm => rfl
    | ptr t => cases t <;> rfl
    | mapT k v => cases v <;> rfl
    | slice t => cases t <;> rfl

/-- C7: `findService` splits the service-method string at its last dot; a
dot-free string is rejected as ill-formed, an unknown service name and an
unknown method name each produce their own error, and resolution succeeds
exactly on a registered (case-exact) service/method pair. -/
theorem C7_findService (m : List (String × Service)) (sn mn : String)
    (svc : Service) (mt : MethodType) :
    (∀ sm : String, '.' ∉ sm.data →
      findService m sm =
        .error ("rpc server: service/method request ill-formed: " ++ sm)) ∧
    ('.' ∉ mn.data →
      ((m.lookup sn = none →
        findService m (sn ++ "." ++ mn) =
          .error ("rpc server: can't find service " ++ sn)) ∧
       (m.lookup sn = some svc →
        ((svc.methods.lookup mn = none →
          findService m (sn ++ "." ++ mn) =
            .error ("rpc server: can't find method " ++ mn)) ∧
         (svc.methods.lookup mn = some mt →
          findService m (sn ++ "." ++ mn) = .ok (svc, mt)))))) := by
  constructor
  · intro sm h
    simp [findService, lastDotSplit_eq_none sm.data h]
  · intro hd
    have hdata : (sn ++ "." ++ mn).data = sn.data ++ '.' :: mn.data := by
      rw [string_data_append, string_data_append]
      show sn.data ++ ['.'] ++ mn.data = sn.data ++ '.' :: mn.data
      rw [List.append_assoc]
      rfl
    have hsplit : lastDotSplit (sn.data ++ '.' :: mn.data) = some (sn.data, mn.data) :=
      lastDotSplit_last sn.data mn.data hd
    refine ⟨?_, ?_⟩
    · intro hs
      simp [findService, hdata, hsplit, string_mk_data, hs]
    · intro hs
      refine ⟨?_, ?_⟩
      · intro hm
        simp [findService, hdata, hsplit, string_mk_data, hs, hm]
      · intro hm
        simp [findService, hdata, hsplit, string_mk_data, hs, hm]

/-- C7 witness: against the map holding only `Foo` (with method `Sum`):
a dot-free name is ill-formed, `Bar.Sum` misses the service, `Foo.Product`
misses the method, `Foo.Sum` resolves. -/
theorem C7_findService_witness :
    findService smapFoo "FooSum" =
      .error ("rpc server: service/method request ill-formed: " ++ "FooSum") ∧
    findService smapFoo ("Bar" ++ "." ++ "Sum") =
      .error ("rpc server: can't find service " ++ "Bar") ∧
    findService smapFoo ("Foo" ++ "." ++ "Product") =
      .error ("rpc server: can't find method " ++ "Product") ∧
    findService smapFoo ("Foo" ++ "." ++ "Sum") = .ok (fooService, mtSum) := by
  have h1 := (C7_findService smapFoo "Foo" "Sum" fooService mtSum).1 "FooSum"
    (by decide)
  have h2 := ((C7_findService smapFoo "Bar" "Sum" fooService mtSum).2
    (by decide)).1 (by rfl)
  have h3 := (((C7_findService smapFoo "Foo" "Product" fooService mtSum).2
    (by decide)).2 (by rfl)).1 (by rfl)
  have h4 := (((C7_findService smapFoo "Foo" "Sum" fooService mtSum).2
    (by decide)).2 (by rfl)).2 (by rfl)
  exact ⟨h1, h2, h3, h4⟩

/-- C1: on a reply frame whose header carries Seq 5 and the non-empty error
"boom", with the call pending: the geerpc `receive` (src/client.go) reads
the header via `ReadHeader`, sets `call.Error` from the header text,
discards the body with `ReadBody(nil)`, removes the call from pending and
signals its Done exactly once — while the gmrpc copy (src/unnamed/part_004)
reads the header via `ReadBody`, never discards the body and never signals
Done, contradicting the claimed behavior. -/
theorem C1_receive_error_frame :
    Geerpc.receiveStep stWith5 hdrErr true =
      { pending := [], events := [.readHeader hdrErr, .readBodyDiscard],
        call := some { call5 with error := some "boom" }, dones := [5] } ∧
    Gmrpc.receiveStep stWith5 hdrErr true =
      { pending := [], events := [.readBodyIntoHeader hdrErr],
        call := some { call5 with error := some "boom" }, dones := [] } := by
  constructor <;> rfl

/-- C2: with only `Foo.Sum` registered and the incoming requests
`Foo.Product` then `Foo.Sum`: the geerpc `readRequest` (src/server.go)
returns a non-nil request carrying the header together with the
"can't find method" error, so its `ServeCodec` sends a per-request error
reply and still serves the subsequent `Foo.Sum` — while the gmrpc copy
(src/server/server.go) returns `(nil, err)`, so its loop breaks at once:
no error reply is sent and the subsequent well-formed call is never served,
contradicting the claimed behavior. -/
theorem C2_unresolved_method :
    Geerpc.readRequest smapFoo reqProduct =
      (some { h := hdrProduct, svcMt := none, argv := none },
       some ("rpc server: can't find method " ++ "Product")) ∧
    Geerpc.serveCodec smapFoo [reqProduct, reqSum] =
      [({ hdrProduct with error := "rpc server: can't find method " ++ "Product" },
        .invalid),
       (hdrSum, .payload 4)] ∧
    Gmrpc.readRequest smapFoo reqProduct =
      (none, some ("rpc server: can't find method " ++ "Product")) ∧
    Gmrpc.serveCodec smapFoo [reqProduct, reqSum] = [] := by
  refine ⟨rfl, rfl, rfl, rfl⟩

/-- C5 counterexample: the gmrpc `ServeConn` (src/server/server.go) enters
the dispatch loop on an option whose MagicNumber is 0 (≠ 0x3bef5c) while
emitting no log at all — refuting "the server logs the mismatch" as a
statement about every server copy in the repository. -/
theorem C5_counterexample :
    serveConnGmrpc knownCodecs (some { magicNumber := 0, codecType := gobType }) =
      (.served gobType, []) := rfl

/-- C5 (amended): on a decoded option with a mismatched MagicNumber, the
geerpc `ServeConn` logs the mismatch and, when the codec type is known,
still enters the dispatch loop; the gmrpc copy performs no magic-number
check at all — its behavior is independent of the magic number and it too
still enters the dispatch loop. In neither copy is a mismatch by itself
fatal to the connection. -/
theorem C5_magic_mismatch (known : List String) (opt : GOption)
    (h : opt.magicNumber ≠ magicNumberConst) :
    SLog.invalidMagic opt.magicNumber ∈ (serveConnGeerpc known (some opt)).2 ∧
    (known.contains opt.codecType = true →
      (serveConnGeerpc known (some opt)).1 = .served opt.codecType) ∧
    serveConnGmrpc known (some opt) =
      serveConnGmrpc known (some { opt with magicNumber := magicNumberConst }) ∧
    (known.contains opt.codecType = true →
      (serveConnGmrpc known (some opt)).1 = .served opt.codecType) := by
  have hlog : (if opt.magicNumber ≠ magicNumberConst
      then [SLog.invalidMagic opt.magicNumber] else ([] : List SLog)) =
      [SLog.invalidMagic opt.magicNumber] := by simp [h]
  refine ⟨?_, ?_, ?_, ?_⟩
  · by_cases hc : opt.codecType ∈ known <;>
      simp [serveConnGeerpc, hc, hlog]
  · intro hc
    have hc2 : opt.codecType ∈ known := by simpa using hc
    simp [serveConnGeerpc, hc2, h]
  · simp [serveConnGmrpc]
  · intro hc
    have hc2 : opt.codecType ∈ known := by simpa using hc
    simp [serveConnGmrpc, hc2]

/-- C5 witness: magic number 0 with the gob codec registered — the geerpc
server logs the mismatch and still serves the connection. -/
theorem C5_magic_mismatch_witness :
    SLog.invalidMagic 0 ∈ (serveConnGeerpc knownCodecs
      (some { magicNumber := 0, codecType := gobType })).2 ∧
    (serveConnGeerpc knownCodecs
      (some { magicNumber := 0, codecType := gobType })).1 = .served gobType := by
  have h := C5_magic_mismatch knownCodecs
    { magicNumber := 0, codecType := gobType } (by decide)
  exact ⟨h.1, h.2.1 (by decide)⟩

/-- C8 counterexample: two options whose first is nil — `parseOptions`
returns `DefaultOption` with no error, refuting "given more than one option
it returns an error". -/
theorem C8_counterexample :
    parseOptions [none, some { magicNumber := 99, codecType := jsonType }] =
      .ok defaultOption := rfl

/-- C8 (amended): every option `parseOptions` accepts carries the default
magic number (so a client built through `Dial` never emits a mismatched
handshake); zero options or a nil first option yield `DefaultOption` (even
when more options follow); more than one option with a non-nil first yields
an error; an empty codec type is replaced by the gob default and a non-empty
one is kept. -/
theorem C8_parseOptions (o : GOption) (rest : List (Option GOption))
    (hrest : rest ≠ []) :
    (∀ opts o2, parseOptions opts = .ok o2 → o2.magicNumber = magicNumberConst) ∧
    parseOptions [] = .ok defaultOption ∧
    parseOptions (none :: rest) = .ok defaultOption ∧
    parseOptions (some o :: rest) = .error "number of options is more than 1" ∧
    (o.codecType = "" →
      parseOptions [some o] =
        .ok { magicNumber := magicNumberConst, codecType := gobType }) ∧
    (o.codecType ≠ "" →
      parseOptions [some o] =
        .ok { magicNumber := magicNumberConst, codecType := o.codecType }) := by
  have hlen : rest.length ≠ 0 := fun hl => hrest (List.length_eq_zero.mp hl)
  have hmagic : ∀ opts o2, parseOptions opts = .ok o2 →
      o2.magicNumber = magicNumberConst := by
    intro opts o2 hok
    match opts with
    | [] =>
      simp [parseOptions] at hok
      subst hok
      rfl
    | none :: t =>
      simp [parseOptions] at hok
      subst hok
      rfl
    | some p :: t =>
      by_cases hl : t.length ≠ 0
      · simp [parseOptions, hl] at hok
      · simp [parseOptions, hl] at hok
        subst hok
        rfl
  refine ⟨hmagic, rfl, rfl, by simp [parseOptions, hlen], ?_, ?_⟩
  · intro hct
    simp [parseOptions, hct, defaultOption]
  · intro hct
    simp [parseOptions, hct, defaultOption]

/-- C8 witness: concrete instances of each accepted/rejected shape. -/
theorem C8_parseOptions_witness :
    parseOptions [some { magicNumber := 99, codecType := jsonType },
                  some { magicNumber := 99, codecType := jsonType }] =
      .error "number of options is more than 1" ∧
    parseOptions [some { magicNumber := 99, codecType := jsonType }] =
      .ok { magicNumber := magicNumberConst, codecType := jsonType } ∧
    parseOptions [some { magicNumber := 99, codecType := "" }] =
      .ok { magicNumber := magicNumberConst, codecType := gobType } ∧
    parseOptions [] = .ok defaultOption := by
  have h1 := C8_parseOptions { magicNumber := 99, codecType := jsonType }
    [some { magicNumber := 99, codecType := jsonType }] (by simp)
  have h2 := C8_parseOptions { magicNumber := 99, codecType := "" }
    [some { magicNumber := 99, codecType := jsonType }] (by simp)
  exact ⟨h1.2.2.2.1, h1.2.2.2.2.2 (by decide), h2.2.2.2.2.1 rfl, h1.2.1⟩

/-- C9: when `closing` or `shutdown` is set, `registerCall` returns
`(0, ErrShutdown)` leaving the state (pending map and seq counter)
untouched, and `send` completes the call with `Error = ErrShutdown`,
signals its Done once, and writes nothing through the codec. -/
theorem C9_shutdown_reject (st : ClientState) (c : Call) (w : Option String)
    (h : st.closing = true ∨ st.shutdown = true) :
    registerCall st c = (st, 0, some errShutdown) ∧
    send st c w =
      { state := st, call := { c with error := some errShutdown },
        writes := [], dones := [c.seq] } := by
  have hcond : (st.closing || st.shutdown) = true := by
    rcases h with h | h <;> simp [h]
  have hreg : registerCall st c = (st, 0, some errShutdown) := by
    simp [registerCall, hcond]
  refine ⟨hreg, ?_⟩
  simp [send, hreg]

/-- C9 witness: a freshly closed client rejects a registration and `send`
fails the call without writing. -/
theorem C9_shutdown_reject_witness :
    registerCall { newClientState with closing := true } dummyCall =
      ({ newClientState with closing := true }, 0, some errShutdown) ∧
    send { newClientState with closing := true } dummyCall none =
      { state := { newClientState with closing := true },
        call := { dummyCall with error := some errShutdown },
        writes := [], dones := [dummyCall.seq] } :=
  C9_shutdown_reject { newClientState with closing := true } dummyCall none
    (Or.inl rfl)

/-- C10: `Go` with a non-nil done channel of capacity 0 panics with
"rpc client: done channel is unbuffered" before constructing the call —
the state (hence the pending map) is untouched and nothing is written;
with a nil done channel it substitutes a fresh buffered channel of
capacity 10 and proceeds without panicking. -/
theorem C10_go_unbuffered (st : ClientState) (sm : String) (a : Nat)
    (w : Option String) :
    goCall st sm a (some 0) w =
      { panicMsg := some "rpc client: done channel is unbuffered",
        state := st, call := none, writes := [], dones := [] } ∧
    (goCall st sm a none w).panicMsg = none ∧
    ((goCall st sm a none w).call.map Call.doneCap) = some 10 := by
  refine ⟨rfl, rfl, ?_⟩
  show some ((send st
    { seq := 0, serviceMethod := sm, args := a, error := none, doneCap := 10 }
    w).call.doneCap) = some 10
  rw [send_call_doneCap]

end GolangRpc
